import Mathlib

/-
  Verification of the star-drawing toolbar state engine
  (src/star_drawing/__init__.py).

  The embedding models, from the source:
  * the derived context predicates built by drawing_toolbar;
  * the per-button data_on_click write sequences on the popover signals
    (style_open / color_open / file_open / text_seen / arrow_seen);
  * the bar composition loop (file menu, tool groups with dividers,
    undo block, colors block, styles popover);
  * the dash-preset selection predicates;
  * the onStateChange patch handler of DrawingCanvas (theme-aware
    recomputation of stroke_color_css / fill_color_css).

  The external drawing controller (static/drawing-canvas.js, compiled from
  a typescript directory that is not part of the Python source) is absent;
  where a claim depends on it (resolveColor, set_dash_preset writes) the
  definition is modelled from the spec and marked as such.
-/

namespace StarDrawing

/-! ### Derived context predicates (drawing_toolbar) -/

/-- Code predicate, from `is_text_ctx = (tool == "text") | text_editing | selected_is_text`. -/
def is_text_ctx (tool : String) (text_editing selected_is_text : Bool) : Bool :=
  (tool == "text") || text_editing || selected_is_text

/-- Code predicate, from `is_shape_ctx = (tool == "rect") | (tool == "ellipse") | (tool == "diamond")`. -/
def is_shape_ctx (tool : String) : Bool :=
  (tool == "rect") || (tool == "ellipse") || (tool == "diamond")

/-- Code predicate, from `has_stroke_style = (tool != "pen") & (tool != "highlighter") & (tool != "eraser")`. -/
def has_stroke_style (tool : String) : Bool :=
  (tool != "pen") && (tool != "highlighter") && (tool != "eraser")

/-- Code predicate, from `show_width = ~is_text_ctx`. -/
def show_width (tool : String) (text_editing selected_is_text : Bool) : Bool :=
  !is_text_ctx tool text_editing selected_is_text

/-- Code predicate, from `show_stroke = has_stroke_style & ~is_text_ctx`. -/
def show_stroke (tool : String) (text_editing selected_is_text : Bool) : Bool :=
  has_stroke_style tool && !is_text_ctx tool text_editing selected_is_text

/-- Spec formula for is_text_ctx: `(tool == "text") OR text_editing OR selected_is_text`. -/
def spec_is_text_ctx (tool : String) (text_editing selected_is_text : Bool) : Bool :=
  (tool == "text") || text_editing || selected_is_text

/-- Spec formula for is_shape_ctx: `tool in {"rect","ellipse","diamond"}`. -/
def spec_is_shape_ctx (tool : String) : Bool :=
  (tool == "rect") || (tool == "ellipse") || (tool == "diamond")

/-- Spec formula for has_stroke_style: `(tool != "pen") AND (tool != "highlighter") AND (tool != "eraser")`. -/
def spec_has_stroke_style (tool : String) : Bool :=
  (tool != "pen") && (tool != "highlighter") && (tool != "eraser")

/-- Spec formula for show_width: `NOT is_text_ctx`. -/
def spec_show_width (tool : String) (text_editing selected_is_text : Bool) : Bool :=
  !spec_is_text_ctx tool text_editing selected_is_text

/-- Spec formula for show_stroke: `has_stroke_style AND NOT is_text_ctx`. -/
def spec_show_stroke (tool : String) (text_editing selected_is_text : Bool) : Bool :=
  spec_has_stroke_style tool && !spec_is_text_ctx tool text_editing selected_is_text

/-! ### Popover signal state and tool-button clicks (drawing_toolbar) -/

/-- Toolbar-local popover signals plus the mirrored tool cell. -/
structure PopoverState where
  style_open : Bool
  color_open : Bool
  file_open : Bool
  text_seen : Bool
  arrow_seen : Bool
  tool : String
deriving DecidableEq, Repr

/-- Seen flag of a reveal-once tool in a given state. -/
def seenFlag (s : PopoverState) (tid : String) : Bool :=
  if tid = "arrow" then s.arrow_seen
  else if tid = "text" then s.text_seen
  else false

/-- Effect of a tool button's data_on_click:
`[canvas.switch_tool(tid), *style_actions, color_open.set(False)]` where
style_actions is `[style_open.set(~arrow_seen), arrow_seen.set(True)]` for arrow,
`[style_open.set(~text_seen), text_seen.set(True)]` for text, and
`[style_open.set(False)]` otherwise. -/
def clickToolButton (s : PopoverState) (tid : String) : PopoverState :=
  let s := { s with tool := tid }
  if tid = "arrow" then
    { s with style_open := !s.arrow_seen, arrow_seen := true, color_open := false }
  else if tid = "text" then
    { s with style_open := !s.text_seen, text_seen := true, color_open := false }
  else
    { s with style_open := false, color_open := false }

/-- Effect of the style trigger's data_on_click:
`[style_open.toggle(), color_open.set(False), file_open.set(False)]`. -/
def styleTriggerClick (s : PopoverState) : PopoverState :=
  { s with style_open := !s.style_open, color_open := false, file_open := false }

/-! ### Palette data and bar composition (drawing_toolbar) -/

/-- Palette as consumed by the toolbar: the four ordered swatch-color lists
`pal["stroke"]["light"]`, `pal["stroke"]["dark"]`, `pal["fill"]["light"]`,
`pal["fill"]["dark"]` (display names stripped, as palette_json does). -/
structure Palette where
  strokeLight : List String
  strokeDark : List String
  fillLight : List String
  fillDark : List String
deriving DecidableEq, Repr

/-- Colors of DEFAULT_PALETTE. -/
def DEFAULT_PALETTE : Palette where
  strokeLight := ["#1a1a2e", "#5c5f6e", "#d94040", "#e8772a", "#c49b1a",
                  "#2d9e5e", "#3568d4", "#7c4dca", "#d4507a", "#a0603a"]
  strokeDark := ["#e4e4e7", "#a1a1aa", "#f87171", "#fb923c", "#facc15",
                 "#4ade80", "#60a5fa", "#a78bfa", "#f472b6", "#d4a574"]
  fillLight := ["#ffffff", "#e8e3db", "#fecdd3", "#fed7aa", "#fef3c7",
                "#bbf7d0", "#bfdbfe", "#ddd6fe", "#fce7f3", "#e8d5c4"]
  fillDark := ["#2a2a3e", "#3a3a4e", "#4c1d1d", "#4c3319", "#4c4419",
               "#1a3d2e", "#1a2d4c", "#2d1a4c", "#4c1a3a", "#3d2d1a"]

/-- Spec-side well-formedness of a palette: light and dark swatch lists for a
given kind must have equal length (written from the spec's words, to compare
against what the builder actually does). -/
def paletteOk (p : Palette) : Bool :=
  (p.strokeLight.length == p.strokeDark.length) && (p.fillLight.length == p.fillDark.length)

/-- One item of the rendered toolbar bar, abstracting the HTML nodes that
drawing_toolbar appends to bar_items. -/
inductive BarItem where
  | divider : BarItem
  | filePopover : BarItem
  | toolBtn (tid : String) : BarItem
  | actionBtn (name : String) : BarItem
  | colorPopover (pal : Palette) : BarItem
  | stylePopover : BarItem
deriving DecidableEq, Repr

/-- TOOL_GROUPS from the source (tool id, tooltip). -/
def TOOL_GROUPS : List (List (String × String)) :=
  [[("select", "Select")],
   [("pen", "Pen"), ("line", "Line"), ("arrow", "Arrow")],
   [("rect", "Rectangle"), ("ellipse", "Ellipse"), ("diamond", "Diamond")],
   [("text", "Text"), ("highlighter", "Highlighter"), ("eraser", "Eraser")]]

/-- Configuration of drawing_toolbar (keyword arguments that shape the bar). -/
structure ToolbarConfig where
  tools : List String
  show_colors : Bool := true
  show_undo : Bool := true
  show_file_actions : Bool := true
  show_styles : Bool := true
  palette : Palette := DEFAULT_PALETTE
  tool_groups : List (List (String × String)) := TOOL_GROUPS
deriving Repr

/-- Buttons a group contributes: `[Button(...) for tid, tip in group if tid in tool_set]`. -/
def toolButtons (tools : List String) (group : List (String × String)) : List BarItem :=
  (group.filter fun p => tools.contains p.1).map fun p => BarItem.toolBtn p.1

/-- The `for group in groups` loop of drawing_toolbar, written as recursion over
the group list: a non-empty group appends a divider first when bar_items is
already non-empty, then its buttons. -/
def addGroups (tools : List String) (groups : List (List (String × String)))
    (bar : List BarItem) : List BarItem :=
  match groups with
  | [] => bar
  | g :: gs =>
    let btns := toolButtons tools g
    if btns.isEmpty then addGroups tools gs bar
    else if bar.isEmpty then addGroups tools gs (bar ++ btns)
    else addGroups tools gs (bar ++ BarItem.divider :: btns)

/-- Bar contents after the file menu (appended first when show_file_actions)
and the tool-group loop. -/
def barAfterGroups (cfg : ToolbarConfig) : List BarItem :=
  addGroups cfg.tools cfg.tool_groups
    (if cfg.show_file_actions then [BarItem.filePopover] else [])

/-- Bar contents after the undo block: `bar_items.extend([_divider(), undo,
redo, clear])` when show_undo. -/
def barAfterUndo (cfg : ToolbarConfig) : List BarItem :=
  if cfg.show_undo then
    barAfterGroups cfg ++ [BarItem.divider, BarItem.actionBtn "undo",
      BarItem.actionBtn "redo", BarItem.actionBtn "clear"]
  else barAfterGroups cfg

/-- Bar contents after the colors block: `bar_items.extend([_divider(),
_popover(color_trigger, ...)])` when show_colors. -/
def barAfterColors (cfg : ToolbarConfig) : List BarItem :=
  if cfg.show_colors then
    barAfterUndo cfg ++ [BarItem.divider, BarItem.colorPopover cfg.palette]
  else barAfterUndo cfg

/-- Bar items produced by drawing_toolbar: file menu first, then the tool
groups, then the undo block, the colors block and the styles popover, each
guarded by its show flag exactly as in the source. -/
def buildBarItems (cfg : ToolbarConfig) : List BarItem :=
  if cfg.show_styles then barAfterColors cfg ++ [BarItem.stylePopover]
  else barAfterColors cfg

/-- Tool ids rendered in the bar, in order. -/
def barToolIds (l : List BarItem) : List String :=
  l.filterMap fun i => match i with
    | BarItem.toolBtn t => some t
    | _ => none

/-- Tool ids the configuration declares, group by group in declared order. -/
def declaredToolIds (cfg : ToolbarConfig) : List String :=
  cfg.tool_groups.flatMap fun g => (g.filter fun p => cfg.tools.contains p.1).map Prod.fst

/-- No two adjacent items of the bar are both dividers. -/
def noAdjacentDividers (l : List BarItem) : Prop :=
  List.Chain' (fun a b => ¬(a = BarItem.divider ∧ b = BarItem.divider)) l

/-- Configuration with the file menu hidden, an empty tool list and only the
undo block shown. -/
def undoOnlyConfig : ToolbarConfig where
  tools := []
  show_file_actions := false
  show_undo := true
  show_colors := false
  show_styles := false

/-- Palette whose stroke light list has two swatches but whose stroke dark
list has only one. -/
def mismatchedPalette : Palette where
  strokeLight := ["#ff0000", "#00ff00"]
  strokeDark := ["#ff6666"]
  fillLight := ["#ffffff"]
  fillDark := ["#333333"]

/-- Minimal colors-only configuration carrying mismatchedPalette. -/
def mismatchedConfig : ToolbarConfig where
  tools := ["pen"]
  show_file_actions := false
  show_undo := false
  show_colors := true
  show_styles := false
  palette := mismatchedPalette

/-! ### Dash preset predicates and writes -/

/-- Selection predicate of the Solid button: `(dash_length == 0) & (dash_gap == 0)`. -/
def solidSelected (dash_length dash_gap : ℚ) : Bool :=
  decide (dash_length = 0) && decide (dash_gap = 0)

/-- Selection predicate of the Dashed button: `dash_length >= 1`. -/
def dashedSelected (dash_length : ℚ) : Bool :=
  decide (1 ≤ dash_length)

/-- Selection predicate of the Dotted button: `(dash_length < 1) & (dash_gap > 0)`. -/
def dottedSelected (dash_length dash_gap : ℚ) : Bool :=
  decide (dash_length < 1) && decide (0 < dash_gap)

/-- How many of the three dash predicates hold at a given (dash_length, dash_gap). -/
def dashSelCount (dash_length dash_gap : ℚ) : Nat :=
  (cond (solidSelected dash_length dash_gap) 1 0) +
  (cond (dashedSelected dash_length) 1 0) +
  (cond (dottedSelected dash_length dash_gap) 1 0)

/-- The dash cells of the style state. -/
structure DashState where
  dash_length : ℚ
  dash_gap : ℚ
deriving DecidableEq, Repr

/-- Names accepted by set_dash_preset. -/
inductive DashPreset where
  | solid : DashPreset
  | dashed : DashPreset
  | dotted : DashPreset
deriving DecidableEq, Repr

/-- Modelled from the spec: `set_dash_preset` is executed by the external
drawing controller (static/drawing-canvas.js), which is not part of the Python
source; §4.6 gives its compound-write contract: `solid -> (dash_length=0,
dash_gap=0)`, `dashed -> (dash_length=<last or default>, dash_gap=0)`,
`dotted -> (dash_length=0, dash_gap=<last or default>)`. The last-or-default
magnitudes are the parameters dashedVal and dottedGap; the toolbar's sliders
only produce dash_length in [2,12] and dash_gap in [2,12]. -/
def set_dash_preset (dashedVal dottedGap : ℚ) (p : DashPreset) (_s : DashState) : DashState :=
  match p with
  | DashPreset.solid => ⟨0, 0⟩
  | DashPreset.dashed => ⟨dashedVal, 0⟩
  | DashPreset.dotted => ⟨0, dottedGap⟩

/-! ### Color token resolution and the onStateChange patch handler -/

/-- Kind component of a palette token. -/
inductive ColorKind where
  | stroke : ColorKind
  | fill : ColorKind
deriving DecidableEq, Repr

/-- Strip a literal character prefix off a character list, or fail. -/
def dropPrefixChars : List Char → List Char → Option (List Char)
  | [], cs => some cs
  | _ :: _, [] => none
  | p :: ps, c :: cs => if c = p then dropPrefixChars ps cs else none

/-- Read a non-empty all-digit character list as a natural number. -/
def digitsToNat (cs : List Char) : Option Nat :=
  if cs.isEmpty then none
  else cs.foldl
    (fun acc c => acc.bind fun n => if c.isDigit then some (n * 10 + (c.toNat - 48)) else none)
    (some 0)

/-- Modelled from the spec: token syntax of the PaletteToken cells. The cells
store strings of the form "palette-stroke-N" / "palette-fill-N" (the toolbar
writes them with token_prefix = "palette-stroke-" / "palette-fill-"); any other
string is not a symbolic token. -/
def parseToken (token : String) : Option (ColorKind × Nat) :=
  match dropPrefixChars "palette-stroke-".data token.data with
  | some rest => (digitsToNat rest).map fun i => (ColorKind.stroke, i)
  | none =>
    match dropPrefixChars "palette-fill-".data token.data with
    | some rest => (digitsToNat rest).map fun i => (ColorKind.fill, i)
    | none => none

/-- Swatch list a token kind selects under a theme. -/
def swatchList (pal : Palette) (k : ColorKind) (theme : String) : List String :=
  match k with
  | ColorKind.stroke => if theme = "dark" then pal.strokeDark else pal.strokeLight
  | ColorKind.fill => if theme = "dark" then pal.fillDark else pal.fillLight

/-- Modelled from the spec: `resolveColor` is exported by the external drawing
controller module (static/drawing-canvas.js), absent from the Python source.
§4.4: a symbolic token resolves to the theme's swatch at the token's index;
§7: an out-of-range index resolves to the fallback swatch at index 0; a
non-token string (a raw CSS color from the native picker or a highlighter
swatch) passes through unchanged. -/
def resolveColor (pal : Palette) (token theme : String) : String :=
  match parseToken token with
  | none => token
  | some (k, i) =>
    let l := swatchList pal k theme
    (l.get? i).getD ((l.get? 0).getD "")

/-- The cells of DrawingCanvas that the onStateChange handler touches. -/
structure CanvasState where
  theme : String
  stroke_color : String
  fill_color : String
  stroke_color_css : String
  fill_color_css : String
  fill_enabled : Bool
deriving DecidableEq, Repr

/-- A controller patch over those cells (absent keys leave the cell alone). -/
structure StatePatch where
  themeP : Option String := none
  strokeColorP : Option String := none
  fillColorP : Option String := none
  fillEnabledP : Option Bool := none
deriving DecidableEq, Repr

/-- The onStateChange handler of DrawingCanvas: every patched cell is written;
then, because tokens are not valid CSS, the resolved cells are recomputed —
if stroke_color is patched, stroke_color_css := resolveColor(stroke_color, th);
if fill_color is patched, fill_color_css := resolveColor(fill_color, th) when
the token is non-empty and "" otherwise; if theme is patched, both resolved
cells are recomputed from the current tokens under the new theme. Here
th = patch.theme ?? current theme, as in the handler. -/
def applyPatch (pal : Palette) (s : CanvasState) (p : StatePatch) : CanvasState :=
  let s1 : CanvasState :=
    { theme := p.themeP.getD s.theme,
      stroke_color := p.strokeColorP.getD s.stroke_color,
      fill_color := p.fillColorP.getD s.fill_color,
      stroke_color_css := s.stroke_color_css,
      fill_color_css := s.fill_color_css,
      fill_enabled := p.fillEnabledP.getD s.fill_enabled }
  let th := p.themeP.getD s.theme
  let s2 := match p.strokeColorP with
    | some sc => { s1 with stroke_color_css := resolveColor pal sc th }
    | none => s1
  let s3 := match p.fillColorP with
    | some fc =>
      { s2 with fill_color_css := if fc = "" then "" else resolveColor pal fc th }
    | none => s2
  match p.themeP with
  | some _ =>
    let sc := p.strokeColorP.getD s.stroke_color
    let fc := p.fillColorP.getD s.fill_color
    { s3 with
      stroke_color_css := resolveColor pal sc th,
      fill_color_css := if fc = "" then "" else resolveColor pal fc th }
  | none => s3

/-- Invariant of §4.4 as the code maintains it: the resolved fill cell always
holds the resolution of the current fill token under the current theme, and is
empty exactly when the fill token is the empty (no-fill) token. -/
def FillCssInv (pal : Palette) (s : CanvasState) : Prop :=
  s.fill_color_css = if s.fill_color = "" then "" else resolveColor pal s.fill_color s.theme

instance (pal : Palette) (s : CanvasState) : Decidable (FillCssInv pal s) :=
  inferInstanceAs (Decidable (s.fill_color_css
    = if s.fill_color = "" then "" else resolveColor pal s.fill_color s.theme))

/-! ### Theorems -/

/-- C1: for every valuation of the cells tool, text_editing, selected_is_text,
the derived context predicates built by drawing_toolbar equal the spec's
definitions exactly (is_text_ctx, is_shape_ctx, has_stroke_style, show_width,
show_stroke). -/
theorem toolbar_predicates_match_spec (tool : String) (text_editing selected_is_text : Bool) :
    is_text_ctx tool text_editing selected_is_text
      = spec_is_text_ctx tool text_editing selected_is_text
    ∧ is_shape_ctx tool = spec_is_shape_ctx tool
    ∧ has_stroke_style tool = spec_has_stroke_style tool
    ∧ show_width tool text_editing selected_is_text
      = spec_show_width tool text_editing selected_is_text
    ∧ show_stroke tool text_editing selected_is_text
      = spec_show_stroke tool text_editing selected_is_text :=
  ⟨rfl, rfl, rfl, rfl, rfl⟩

/-- C2: for a reveal-once tool (arrow or text) whose seen flag is false,
clicking its button sets style_open to true and the seen flag to true; after a
manual close via the style trigger, clicking the same tool's button again
yields style_open = false. -/
theorem reveal_once_progressive_disclosure (s : PopoverState) (tid : String)
    (htool : tid = "arrow" ∨ tid = "text") (hseen : seenFlag s tid = false) :
    (clickToolButton s tid).style_open = true
    ∧ seenFlag (clickToolButton s tid) tid = true
    ∧ (styleTriggerClick (clickToolButton s tid)).style_open = false
    ∧ (clickToolButton (styleTriggerClick (clickToolButton s tid)) tid).style_open = false := by
  rcases htool with h | h <;> subst h <;>
    simp_all [clickToolButton, styleTriggerClick, seenFlag]

/-- Witness for C2 at a concrete fresh state, once for arrow. -/
theorem reveal_once_progressive_disclosure_witness :
    (clickToolButton ⟨false, false, false, false, false, "pen"⟩ "arrow").style_open = true
    ∧ seenFlag (clickToolButton ⟨false, false, false, false, false, "pen"⟩ "arrow") "arrow" = true
    ∧ (styleTriggerClick (clickToolButton ⟨false, false, false, false, false, "pen"⟩ "arrow")).style_open = false
    ∧ (clickToolButton (styleTriggerClick
        (clickToolButton ⟨false, false, false, false, false, "pen"⟩ "arrow")) "arrow").style_open = false :=
  reveal_once_progressive_disclosure ⟨false, false, false, false, false, "pen"⟩ "arrow"
    (Or.inl rfl) (by decide)

/-- C8: a tool-button click that switches to any tool that is not reveal-once
(not arrow and not text) sets style_open = false unconditionally, whatever the
previous popover state. -/
theorem non_revealing_tool_click_closes_style (s : PopoverState) (tid : String)
    (ha : tid ≠ "arrow") (ht : tid ≠ "text") :
    (clickToolButton s tid).style_open = false := by
  simp [clickToolButton, ha, ht]

/-- Witness for C8: switching to highlighter from a manually opened style
popover closes it. -/
theorem non_revealing_tool_click_closes_style_witness :
    (clickToolButton ⟨true, false, false, true, true, "arrow"⟩ "highlighter").style_open = false :=
  non_revealing_tool_click_closes_style ⟨true, false, false, true, true, "arrow"⟩
    "highlighter" (by decide) (by decide)

/-- C10 counterexample: with arrow_seen already true and the style popover
already closed, clicking the arrow button writes style_open := false, which
leaves the cell's value unchanged — refuting "a reveal-once tool-button click
never leaves style_open unchanged". -/
theorem reveal_once_click_can_leave_style_open_unchanged :
    (clickToolButton ⟨false, false, false, false, true, "pen"⟩ "arrow").style_open
      = (⟨false, false, false, false, true, "pen"⟩ : PopoverState).style_open := by
  decide

/-- C10 amended: clicking a reveal-once tool's button always writes
style_open := NOT seen — in particular with the seen flag true it writes false,
force-closing a manually opened popover — but the written value does not depend
on the prior style_open and may coincide with it. -/
theorem reveal_once_click_writes_not_seen (s : PopoverState) (tid : String)
    (htool : tid = "arrow" ∨ tid = "text") :
    (clickToolButton s tid).style_open = !seenFlag s tid
    ∧ (seenFlag s tid = true → (clickToolButton s tid).style_open = false) := by
  rcases htool with h | h <;> subst h <;>
    simp_all [clickToolButton, seenFlag]

/-- Witness for C10's amended statement: arrow with seen flag true and the
popover manually open is force-closed. -/
theorem reveal_once_click_writes_not_seen_witness :
    (clickToolButton ⟨true, false, false, false, true, "pen"⟩ "arrow").style_open
      = !seenFlag ⟨true, false, false, false, true, "pen"⟩ "arrow"
    ∧ (seenFlag (⟨true, false, false, false, true, "pen"⟩ : PopoverState) "arrow" = true →
        (clickToolButton ⟨true, false, false, false, true, "pen"⟩ "arrow").style_open = false) :=
  reveal_once_click_writes_not_seen ⟨true, false, false, false, true, "pen"⟩ "arrow" (Or.inl rfl)

/-- C4: after any set_dash_preset write obeying the §4.6 contract (the
last-or-default dashed length is at least 1 and the last-or-default dotted gap
is positive, as the sliders' minima of 2 guarantee), exactly one of the
solid/dashed/dotted predicates is true; and for arbitrary (dash_length,
dash_gap) values at most one of the three is true. -/
theorem dash_preset_exclusivity :
    (∀ (dashedVal dottedGap : ℚ), 1 ≤ dashedVal → 0 < dottedGap →
      ∀ (p : DashPreset) (s : DashState),
        dashSelCount (set_dash_preset dashedVal dottedGap p s).dash_length
          (set_dash_preset dashedVal dottedGap p s).dash_gap = 1)
    ∧ (∀ dash_length dash_gap : ℚ, dashSelCount dash_length dash_gap ≤ 1) := by
  have hcond : ∀ b : Bool, (cond b 1 0 : ℕ) ≤ 1 := by intro b; cases b <;> simp
  constructor
  · intro dashedVal dottedGap hd hg p s
    cases p <;>
      simp only [set_dash_preset, dashSelCount, solidSelected, dashedSelected, dottedSelected]
    · norm_num
    · have h0 : ¬dashedVal = 0 := by intro h; rw [h] at hd; norm_num at hd
      have h1 : ¬dashedVal < 1 := not_lt.mpr hd
      simp [h0, hd, h1]
    · have h0 : ¬dottedGap = 0 := by intro h; rw [h] at hg; norm_num at hg
      have h10 : ¬(1 : ℚ) ≤ 0 := by norm_num
      simp [h0, hg, h10]
  · intro l g
    by_cases h1 : (1 : ℚ) ≤ l
    · have h0 : ¬l = 0 := by intro h; rw [h] at h1; norm_num at h1
      have h2 : ¬l < 1 := not_lt.mpr h1
      simp [dashSelCount, solidSelected, dashedSelected, dottedSelected, h0, h1, h2]
    · have hds : dashedSelected l = false := by simp [dashedSelected, h1]
      by_cases hg0 : g = 0
      · have hdt : dottedSelected l g = false := by simp [dottedSelected, hg0]
        simp only [dashSelCount, hds, hdt, cond_false, Nat.add_zero]
        exact hcond _
      · have hso : solidSelected l g = false := by simp [solidSelected, hg0]
        simp only [dashSelCount, hso, hds, cond_false, Nat.zero_add, Nat.add_zero]
        exact hcond _

/-- Witness for C4 at concrete values: the contract instantiated with
dashed length 4 and dotted gap 4 yields exactly one predicate after the dashed
preset, and the pair (0, 0) satisfies at most one predicate. -/
theorem dash_preset_exclusivity_witness :
    dashSelCount (set_dash_preset 4 4 DashPreset.dashed ⟨0, 0⟩).dash_length
      (set_dash_preset 4 4 DashPreset.dashed ⟨0, 0⟩).dash_gap = 1
    ∧ dashSelCount 0 0 ≤ 1 :=
  ⟨dash_preset_exclusivity.1 4 4 (by norm_num) (by norm_num) DashPreset.dashed ⟨0, 0⟩,
   dash_preset_exclusivity.2 0 0⟩

/-- Helper: indexing with fallback to index 0 never yields the empty string on
a non-empty list of non-empty strings. -/
theorem getD_fallback_ne_empty (l : List String) (hne : l ≠ []) (hall : ∀ x ∈ l, x ≠ "")
    (i : Nat) : ((l.get? i).getD ((l.get? 0).getD "")) ≠ "" := by
  cases h : l.get? i with
  | some x =>
    simp only [h, Option.getD_some]
    exact hall x (List.get?_mem h)
  | none =>
    cases l with
    | nil => exact absurd rfl hne
    | cons a t =>
      simp only [h, Option.getD_none, List.get?_cons_zero, Option.getD_some]
      exact hall a (List.mem_cons_self a t)

/-- Helper: every swatch list of DEFAULT_PALETTE is non-empty and holds only
non-empty colors. -/
theorem swatchList_default_ok (k : ColorKind) (th : String) :
    swatchList DEFAULT_PALETTE k th ≠ []
    ∧ ∀ x ∈ swatchList DEFAULT_PALETTE k th, x ≠ "" := by
  cases k <;> simp only [swatchList] <;> by_cases h : th = "dark" <;> simp [h] <;> decide

/-- Helper: resolving a non-empty token against DEFAULT_PALETTE never
yields "". -/
theorem resolveColor_default_ne_empty (tok th : String) (hne : tok ≠ "") :
    resolveColor DEFAULT_PALETTE tok th ≠ "" := by
  unfold resolveColor
  cases hp : parseToken tok with
  | none => exact hne
  | some ki =>
    obtain ⟨k, i⟩ := ki
    exact getD_fallback_ne_empty _ (swatchList_default_ok k th).1
      (swatchList_default_ok k th).2 i

/-- C6 counterexample: from a state with fill disabled (fill_enabled = false),
a controller patch writing the non-empty fill token "palette-fill-0" leaves
fill_enabled false yet makes fill_color_css the resolved hex "#ffffff" — so
fill_color_css is not the empty string whenever fill_enabled is false. -/
theorem fill_css_not_empty_while_fill_disabled :
    (applyPatch DEFAULT_PALETTE ⟨"light", "palette-stroke-0", "", "#1a1a2e", "", false⟩
      { fillColorP := some "palette-fill-0" }).fill_enabled = false
    ∧ (applyPatch DEFAULT_PALETTE ⟨"light", "palette-stroke-0", "", "#1a1a2e", "", false⟩
        { fillColorP := some "palette-fill-0" }).fill_color_css = "#ffffff" := by
  decide

/-- C6 amended: the handler keeps fill_color_css equal to the resolution of the
current fill token under the current theme, empty exactly when the fill token
itself is the empty (no-fill) token; fill_enabled plays no role. The invariant
is preserved by every controller patch. -/
theorem fill_css_tracks_fill_token (pal : Palette) (s : CanvasState) (p : StatePatch)
    (h : FillCssInv pal s) : FillCssInv pal (applyPatch pal s p) := by
  unfold FillCssInv applyPatch
  cases hth : p.themeP <;> cases hfc : p.fillColorP <;>
    cases hsc : p.strokeColorP <;>
      simp_all [FillCssInv]

/-- Witness for C6's amended statement at a concrete state and patch. -/
theorem fill_css_tracks_fill_token_witness :
    FillCssInv DEFAULT_PALETTE
      (applyPatch DEFAULT_PALETTE ⟨"light", "palette-stroke-0", "", "#1a1a2e", "", false⟩
        { themeP := some "dark", fillColorP := some "palette-fill-1" }) :=
  fill_css_tracks_fill_token DEFAULT_PALETTE
    ⟨"light", "palette-stroke-0", "", "#1a1a2e", "", false⟩
    { themeP := some "dark", fillColorP := some "palette-fill-1" } (by decide)

/-- C7: from any state with fill_enabled = false, a patch writing a non-empty
fill_color token leaves fill_enabled false while fill_color_css resolves to
that token's hex value and is non-empty. -/
theorem fill_token_write_keeps_fill_disabled (s : CanvasState) (tok : String)
    (hfe : s.fill_enabled = false) (hne : tok ≠ "") :
    (applyPatch DEFAULT_PALETTE s { fillColorP := some tok }).fill_enabled = false
    ∧ (applyPatch DEFAULT_PALETTE s { fillColorP := some tok }).fill_color_css
        = resolveColor DEFAULT_PALETTE tok s.theme
    ∧ (applyPatch DEFAULT_PALETTE s { fillColorP := some tok }).fill_color_css ≠ "" := by
  refine ⟨?_, ?_, ?_⟩ <;> simp only [applyPatch, Option.getD_none]
  · exact hfe
  · simp [hne]
  · simp only [if_neg hne]
    exact resolveColor_default_ne_empty tok s.theme hne

/-- Witness for C7 with the token "palette-fill-2" written while fill is
disabled. -/
theorem fill_token_write_keeps_fill_disabled_witness :
    (applyPatch DEFAULT_PALETTE ⟨"light", "palette-stroke-0", "", "#1a1a2e", "", false⟩
      { fillColorP := some "palette-fill-2" }).fill_enabled = false
    ∧ (applyPatch DEFAULT_PALETTE ⟨"light", "palette-stroke-0", "", "#1a1a2e", "", false⟩
        { fillColorP := some "palette-fill-2" }).fill_color_css
        = resolveColor DEFAULT_PALETTE "palette-fill-2"
            (⟨"light", "palette-stroke-0", "", "#1a1a2e", "", false⟩ : CanvasState).theme
    ∧ (applyPatch DEFAULT_PALETTE ⟨"light", "palette-stroke-0", "", "#1a1a2e", "", false⟩
        { fillColorP := some "palette-fill-2" }).fill_color_css ≠ "" :=
  fill_token_write_keeps_fill_disabled ⟨"light", "palette-stroke-0", "", "#1a1a2e", "", false⟩
    "palette-fill-2" rfl (by decide)

/-- C9: a patch that writes only the theme cell changes only theme and the two
resolved cells — the symbolic token cells and fill_enabled are untouched — and
concretely, setting theme to "dark" while the stroke token is "palette-stroke-2"
makes stroke_color_css the dark swatch at index 2 ("#f87171") and leaves the
stroke token cell unchanged. -/
theorem theme_patch_changes_only_resolved_cells (pal : Palette) (s : CanvasState) (th : String) :
    ((applyPatch pal s { themeP := some th }).stroke_color = s.stroke_color
    ∧ (applyPatch pal s { themeP := some th }).fill_color = s.fill_color
    ∧ (applyPatch pal s { themeP := some th }).fill_enabled = s.fill_enabled
    ∧ (applyPatch pal s { themeP := some th }).theme = th
    ∧ (applyPatch pal s { themeP := some th }).stroke_color_css
        = resolveColor pal s.stroke_color th
    ∧ (applyPatch pal s { themeP := some th }).fill_color_css
        = (if s.fill_color = "" then "" else resolveColor pal s.fill_color th))
    ∧ (applyPatch DEFAULT_PALETTE ⟨"light", "palette-stroke-2", "", "#d94040", "", false⟩
        { themeP := some "dark" }).stroke_color_css = "#f87171"
    ∧ (applyPatch DEFAULT_PALETTE ⟨"light", "palette-stroke-2", "", "#d94040", "", false⟩
        { themeP := some "dark" }).stroke_color = "palette-stroke-2" := by
  refine ⟨⟨?_, ?_, ?_, ?_, ?_, ?_⟩, by decide, by decide⟩ <;> simp [applyPatch]

/-! ### Bar-structure lemmas -/

/-- Helper: a divider-free list has no adjacent dividers. -/
theorem noAdjacentDividers_of_no_divider (l : List BarItem) (h : BarItem.divider ∉ l) :
    noAdjacentDividers l := by
  induction l with
  | nil => exact List.chain'_nil
  | cons a t ih =>
    unfold noAdjacentDividers at *
    rw [List.chain'_cons']
    refine ⟨?_, ih fun hm => h (List.mem_cons_of_mem a hm)⟩
    intro y _ hy
    exact h (hy.1 ▸ List.mem_cons_self a t)

/-- Helper: head of a divider-free list is not a divider. -/
theorem head?_ne_divider_of_no_divider (l : List BarItem) (h : BarItem.divider ∉ l) :
    l.head? ≠ some BarItem.divider := by
  cases l with
  | nil => simp
  | cons a t =>
    simp only [List.head?_cons, ne_eq, Option.some.injEq]
    intro ha
    exact h (ha ▸ List.mem_cons_self a t)

/-- Helper: last of a divider-free list is not a divider. -/
theorem getLast?_ne_divider_of_no_divider (l : List BarItem) (h : BarItem.divider ∉ l) :
    l.getLast? ≠ some BarItem.divider := by
  intro hl
  exact h (List.mem_getLast?_eq_getLast hl |>.elim fun hw hx => hx ▸ List.getLast_mem hw)

/-- Helper: toolButtons produces only tool buttons, never a divider. -/
theorem toolButtons_no_divider (tools : List String) (g : List (String × String)) :
    BarItem.divider ∉ toolButtons tools g := by
  unfold toolButtons
  intro hm
  rcases List.mem_map.mp hm with ⟨p, _, hp⟩
  cases hp

/-- Helper: appending a non-empty block whose last item is not a divider and
which has no adjacent dividers, onto a bar whose last item is not a divider,
keeps the last item a non-divider and the dividers non-adjacent; the head of
the result is the bar's head unless the bar was empty. -/
theorem append_block_ok (l₁ l₂ : List BarItem)
    (hl₁ : l₁.getLast? ≠ some BarItem.divider) (hc₁ : noAdjacentDividers l₁)
    (hl₂ : l₂.getLast? ≠ some BarItem.divider) (hc₂ : noAdjacentDividers l₂)
    (hne₂ : l₂ ≠ []) :
    (l₁ ++ l₂).getLast? ≠ some BarItem.divider
    ∧ noAdjacentDividers (l₁ ++ l₂)
    ∧ (l₁ ++ l₂).head? = (if l₁ = [] then l₂.head? else l₁.head?) := by
  refine ⟨?_, ?_, ?_⟩
  · rw [List.getLast?_append_of_ne_nil l₁ hne₂]
    exact hl₂
  · exact List.Chain'.append hc₁ hc₂ fun x hx y _ hxy =>
      hl₁ (by rw [hxy.1] at hx; exact hx)
  · cases l₁ with
    | nil => simp
    | cons a t => simp

/-- Helper: the divider-leading block `divider :: blk` for a non-empty
divider-free blk ends in a non-divider and has no adjacent dividers. -/
theorem divider_block_ok (blk : List BarItem) (hblk : BarItem.divider ∉ blk)
    (hbne : blk ≠ []) :
    (BarItem.divider :: blk).getLast? ≠ some BarItem.divider
    ∧ noAdjacentDividers (BarItem.divider :: blk) := by
  constructor
  · rw [show BarItem.divider :: blk = [BarItem.divider] ++ blk from rfl,
      List.getLast?_append_of_ne_nil _ hbne]
    exact getLast?_ne_divider_of_no_divider blk hblk
  · unfold noAdjacentDividers
    rw [List.chain'_cons']
    refine ⟨?_, noAdjacentDividers_of_no_divider blk hblk⟩
    intro y hy hxy
    exact hblk (hxy.2 ▸ (List.mem_of_mem_head? hy))

/-- Invariant of the group loop: starting from a bar whose head and last are
not dividers and whose dividers are non-adjacent, the loop preserves all
three properties, preserves the head of a non-empty bar, never empties a
non-empty bar, and produces a non-empty bar whenever some group renders a
button. -/
theorem addGroups_ok (tools : List String) (groups : List (List (String × String))) :
    ∀ bar : List BarItem,
      bar.head? ≠ some BarItem.divider →
      bar.getLast? ≠ some BarItem.divider →
      noAdjacentDividers bar →
      (addGroups tools groups bar).head? ≠ some BarItem.divider
      ∧ (addGroups tools groups bar).getLast? ≠ some BarItem.divider
      ∧ noAdjacentDividers (addGroups tools groups bar)
      ∧ (bar ≠ [] → (addGroups tools groups bar).head? = bar.head?)
      ∧ (bar ≠ [] → addGroups tools groups bar ≠ [])
      ∧ ((∃ g ∈ groups, toolButtons tools g ≠ []) → addGroups tools groups bar ≠ []) := by
  induction groups with
  | nil =>
    intro bar hh hl hc
    refine ⟨hh, hl, hc, fun _ => rfl, fun h => h, ?_⟩
    rintro ⟨g, hg, _⟩
    exact absurd hg (List.not_mem_nil g)
  | cons g gs ih =>
    intro bar hh hl hc
    unfold addGroups
    by_cases hbtns : (toolButtons tools g).isEmpty
    · simp only [hbtns, if_true]
      obtain ⟨r1, r2, r3, r4, r5, r6⟩ := ih bar hh hl hc
      refine ⟨r1, r2, r3, r4, r5, ?_⟩
      rintro ⟨g', hg', hgne⟩
      rcases List.mem_cons.mp hg' with hgg | hgg
      · exact absurd (List.isEmpty_iff.mp hbtns) (hgg ▸ hgne)
      · exact r6 ⟨g', hgg, hgne⟩
    · have hbne : toolButtons tools g ≠ [] := fun h => hbtns (by simp [h])
      have hnd := toolButtons_no_divider tools g
      simp only [hbtns, if_false]
      by_cases hbar : bar.isEmpty
      · have hbar' : bar = [] := List.isEmpty_iff.mp hbar
        simp only [hbar, if_true, hbar', List.nil_append]
        obtain ⟨r1, r2, r3, r4, r5, _⟩ := ih (toolButtons tools g)
          (head?_ne_divider_of_no_divider _ hnd)
          (getLast?_ne_divider_of_no_divider _ hnd)
          (noAdjacentDividers_of_no_divider _ hnd)
        exact ⟨r1, r2, r3, fun h => absurd rfl h, fun h => absurd rfl h,
          fun _ => r5 hbne⟩
      · have hbar' : bar ≠ [] := fun h => hbar (by rw [h]; rfl)
        simp only [hbar, if_false]
        obtain ⟨d1, d2⟩ := divider_block_ok (toolButtons tools g) hnd hbne
        obtain ⟨a1, a2, a3⟩ := append_block_ok bar (BarItem.divider :: toolButtons tools g)
          hl hc d1 d2 (by simp)
        have hh' : (bar ++ BarItem.divider :: toolButtons tools g).head? = bar.head? := by
          rw [a3, if_neg hbar']
        have hne' : bar ++ BarItem.divider :: toolButtons tools g ≠ [] := by simp
        obtain ⟨r1, r2, r3, r4, r5, _⟩ := ih (bar ++ BarItem.divider :: toolButtons tools g)
          (hh' ▸ hh) a1 a2
        refine ⟨r1, r2, r3, fun _ => (r4 hne').trans hh', fun _ => r5 hne', fun _ => r5 hne'⟩

/-- Helper: barToolIds distributes over append. -/
theorem barToolIds_append (l₁ l₂ : List BarItem) :
    barToolIds (l₁ ++ l₂) = barToolIds l₁ ++ barToolIds l₂ :=
  List.filterMap_append l₁ l₂ _

/-- Helper: the tool ids of a group's buttons are the group's declared ids that
survive the tool filter, in order. -/
theorem barToolIds_toolButtons (tools : List String) (g : List (String × String)) :
    barToolIds (toolButtons tools g) = (g.filter fun p => tools.contains p.1).map Prod.fst := by
  unfold barToolIds toolButtons
  rw [List.filterMap_map]
  exact congrFun (List.filterMap_eq_map Prod.fst) _

/-- Helper: a leading divider contributes no tool id. -/
theorem barToolIds_divider_cons (l : List BarItem) :
    barToolIds (BarItem.divider :: l) = barToolIds l := by
  simp [barToolIds]

/-- Helper: the group loop appends exactly the declared filtered tool ids of
each group, in declared order. -/
theorem addGroups_toolIds (tools : List String) (groups : List (List (String × String))) :
    ∀ bar : List BarItem,
      barToolIds (addGroups tools groups bar)
        = barToolIds bar
          ++ groups.flatMap fun g => (g.filter fun p => tools.contains p.1).map Prod.fst := by
  induction groups with
  | nil => intro bar; simp [addGroups]
  | cons g gs ih =>
    intro bar
    unfold addGroups
    by_cases hbtns : (toolButtons tools g).isEmpty
    · have hfil : (g.filter fun p => tools.contains p.1).map Prod.fst = [] := by
        have hbt : toolButtons tools g = [] := List.isEmpty_iff.mp hbtns
        unfold toolButtons at hbt
        rw [List.map_eq_nil_iff.mp hbt]
        simp
      simp only [hbtns, if_true, ih, List.flatMap_cons, hfil, List.nil_append]
    · by_cases hbar : bar.isEmpty
      · simp [hbtns, hbar, ih, barToolIds_append, barToolIds_toolButtons,
          List.flatMap_cons, List.append_assoc]
      · simp [hbtns, hbar, ih, barToolIds_append, barToolIds_divider_cons,
          barToolIds_toolButtons, List.flatMap_cons, List.append_assoc]

/-- Helper: facts about one optional `bar ++ [divider, ...block]` stage. -/
theorem stage_facts (l : List BarItem) (b : Bool) (blk : List BarItem)
    (hnd : BarItem.divider ∉ blk) (hbne : blk ≠ []) (hids : barToolIds blk = [])
    (hl : l.getLast? ≠ some BarItem.divider) (hc : noAdjacentDividers l) :
    (if b then l ++ BarItem.divider :: blk else l).getLast? ≠ some BarItem.divider
    ∧ noAdjacentDividers (if b then l ++ BarItem.divider :: blk else l)
    ∧ (l ≠ [] → (if b then l ++ BarItem.divider :: blk else l).head? = l.head?)
    ∧ (l ≠ [] → (if b then l ++ BarItem.divider :: blk else l) ≠ [])
    ∧ barToolIds (if b then l ++ BarItem.divider :: blk else l) = barToolIds l := by
  cases b
  · have e : (if false then l ++ BarItem.divider :: blk else l) = l := by simp
    rw [e]
    exact ⟨hl, hc, fun _ => rfl, fun h => h, rfl⟩
  · have e : (if true then l ++ BarItem.divider :: blk else l) = l ++ BarItem.divider :: blk := by
      simp
    rw [e]
    obtain ⟨d1, d2⟩ := divider_block_ok blk hnd hbne
    obtain ⟨a1, a2, a3⟩ := append_block_ok l (BarItem.divider :: blk) hl hc d1 d2 (by simp)
    refine ⟨a1, a2, fun hne => by rw [a3, if_neg hne], fun _ => by simp, ?_⟩
    rw [barToolIds_append, barToolIds_divider_cons, hids, List.append_nil]

/-- Helper: facts about one optional `bar ++ [block]` stage without a leading
divider. -/
theorem stage_facts_plain (l : List BarItem) (b : Bool) (blk : List BarItem)
    (hnd : BarItem.divider ∉ blk) (hbne : blk ≠ []) (hids : barToolIds blk = [])
    (hl : l.getLast? ≠ some BarItem.divider) (hc : noAdjacentDividers l) :
    (if b then l ++ blk else l).getLast? ≠ some BarItem.divider
    ∧ noAdjacentDividers (if b then l ++ blk else l)
    ∧ (l ≠ [] → (if b then l ++ blk else l).head? = l.head?)
    ∧ barToolIds (if b then l ++ blk else l) = barToolIds l := by
  cases b
  · have e : (if false then l ++ blk else l) = l := by simp
    rw [e]
    exact ⟨hl, hc, fun _ => rfl, rfl⟩
  · have e : (if true then l ++ blk else l) = l ++ blk := by simp
    rw [e]
    obtain ⟨a1, a2, a3⟩ := append_block_ok l blk hl hc
      (getLast?_ne_divider_of_no_divider blk hnd)
      (noAdjacentDividers_of_no_divider blk hnd) hbne
    refine ⟨a1, a2, fun hne => by rw [a3, if_neg hne], ?_⟩
    rw [barToolIds_append, hids, List.append_nil]

/-- Helper: facts about the optional leading file-menu item. -/
theorem fileStage (b : Bool) :
    (if b then [BarItem.filePopover] else ([] : List BarItem)).head? ≠ some BarItem.divider
    ∧ (if b then [BarItem.filePopover] else ([] : List BarItem)).getLast? ≠ some BarItem.divider
    ∧ noAdjacentDividers (if b then [BarItem.filePopover] else ([] : List BarItem))
    ∧ barToolIds (if b then [BarItem.filePopover] else ([] : List BarItem)) = []
    ∧ (b = true → (if b then [BarItem.filePopover] else ([] : List BarItem)) ≠ []) := by
  cases b
  · exact ⟨by decide, by decide, List.chain'_nil, rfl, by decide⟩
  · exact ⟨by decide, by decide, List.chain'_singleton _, rfl, by decide⟩

/-- C3 counterexample: under undoOnlyConfig the rendered bar is
[divider, undo, redo, clear] — it begins with a divider, refuting "the bar
never begins ... with a divider" for every configuration. -/
theorem bar_can_begin_with_divider :
    buildBarItems undoOnlyConfig
      = [BarItem.divider, BarItem.actionBtn "undo", BarItem.actionBtn "redo",
         BarItem.actionBtn "clear"]
    ∧ (buildBarItems undoOnlyConfig).head? = some BarItem.divider := by
  decide

/-- C3 amended: in every configuration, tool buttons render in declared group
order, the bar never ends with a divider and never contains two adjacent
dividers; and whenever the file menu is shown or at least one tool group
renders a button — in particular in every configuration with the default tool
list — the bar does not begin with a divider either. (The counterexample
forces this qualification: with the file menu hidden and no tool rendered, the
undo or colors block contributes a leading divider.) -/
theorem bar_divider_structure (cfg : ToolbarConfig) :
    barToolIds (buildBarItems cfg) = declaredToolIds cfg
    ∧ (buildBarItems cfg).getLast? ≠ some BarItem.divider
    ∧ noAdjacentDividers (buildBarItems cfg)
    ∧ ((cfg.show_file_actions = true ∨ ∃ g ∈ cfg.tool_groups, toolButtons cfg.tools g ≠ []) →
        (buildBarItems cfg).head? ≠ some BarItem.divider) := by
  obtain ⟨f1, f2, f3, f4, f5⟩ := fileStage cfg.show_file_actions
  obtain ⟨g1, g2, g3, g4, g5, g6⟩ := addGroups_ok cfg.tools cfg.tool_groups _ f1 f2 f3
  have h1ids : barToolIds (barAfterGroups cfg) = declaredToolIds cfg := by
    unfold barAfterGroups declaredToolIds
    rw [addGroups_toolIds, f4, List.nil_append]
  have h1ne : (cfg.show_file_actions = true ∨ ∃ g ∈ cfg.tool_groups,
      toolButtons cfg.tools g ≠ []) → barAfterGroups cfg ≠ [] := by
    rintro (hsf | hex)
    · exact g5 (f5 hsf)
    · exact g6 hex
  obtain ⟨u1, u2, u3, u4, u5⟩ := stage_facts (barAfterGroups cfg) cfg.show_undo
    [BarItem.actionBtn "undo", BarItem.actionBtn "redo", BarItem.actionBtn "clear"]
    (by decide) (by decide) (by decide) g2 g3
  obtain ⟨c1, c2, c3, c4, c5⟩ := stage_facts (barAfterUndo cfg) cfg.show_colors
    [BarItem.colorPopover cfg.palette]
    (by simp) (by simp) (by simp [barToolIds]) u1 u2
  obtain ⟨s1, s2, s3, s4⟩ := stage_facts_plain (barAfterColors cfg) cfg.show_styles
    [BarItem.stylePopover] (by decide) (by decide) (by decide) c1 c2
  refine ⟨?_, s1, s2, ?_⟩
  · exact s4.trans (c5.trans (u5.trans h1ids))
  · intro hpre
    have hne1 := h1ne hpre
    have hne2 : barAfterUndo cfg ≠ [] := u4 hne1
    have hne3 : barAfterColors cfg ≠ [] := c4 hne2
    have e1 : (buildBarItems cfg).head? = (barAfterColors cfg).head? := s3 hne3
    have e2 : (barAfterColors cfg).head? = (barAfterUndo cfg).head? := c3 hne2
    have e3 : (barAfterUndo cfg).head? = (barAfterGroups cfg).head? := u3 hne1
    rw [e1, e2, e3]
    exact g1

/-- Witness for C3's amended statement at the default configuration with the
tools ("pen", "line", "rect") of the spec's scenario. -/
theorem bar_divider_structure_witness :
    barToolIds (buildBarItems { tools := ["pen", "line", "rect"] })
      = declaredToolIds { tools := ["pen", "line", "rect"] }
    ∧ (buildBarItems { tools := ["pen", "line", "rect"] }).getLast? ≠ some BarItem.divider
    ∧ noAdjacentDividers (buildBarItems { tools := ["pen", "line", "rect"] })
    ∧ (buildBarItems { tools := ["pen", "line", "rect"] }).head? ≠ some BarItem.divider := by
  obtain ⟨h1, h2, h3, h4⟩ := bar_divider_structure { tools := ["pen", "line", "rect"] }
  exact ⟨h1, h2, h3, h4 (Or.inl rfl)⟩

/-- C5 counterexample: mismatchedPalette violates the equal-length invariant,
yet drawing_toolbar builds a toolbar from it without any error — the bar below
is produced, color popover included. -/
theorem mismatched_palette_builds_anyway :
    paletteOk mismatchedPalette = false
    ∧ buildBarItems mismatchedConfig
      = [BarItem.toolBtn "pen", BarItem.divider, BarItem.colorPopover mismatchedPalette] := by
  decide

/-- C5 amended: drawing_toolbar performs no palette validation at all — for
every configuration with show_colors, whatever the palette (equal-length or
not), construction succeeds and the bar embeds a color popover carrying that
palette unchanged. -/
theorem toolbar_never_validates_palette (cfg : ToolbarConfig)
    (h : cfg.show_colors = true) :
    BarItem.colorPopover cfg.palette ∈ buildBarItems cfg := by
  have hmem : BarItem.colorPopover cfg.palette ∈ barAfterColors cfg := by
    unfold barAfterColors
    rw [h]
    simp
  unfold buildBarItems
  cases hs : cfg.show_styles
  · simpa using hmem
  · simp only [if_true]
    exact List.mem_append_left _ hmem

/-- Witness for C5's amended statement: the mismatched palette above still
lands in the built toolbar. -/
theorem toolbar_never_validates_palette_witness :
    BarItem.colorPopover mismatchedConfig.palette ∈ buildBarItems mismatchedConfig :=
  toolbar_never_validates_palette mismatchedConfig rfl

end StarDrawing
